import Mathlib

/-!
# Verification development for the MenoCare health-tracking repository

This file gives a shallow embedding, in Lean 4, of the data model and the
operations of the repository (a Python/Streamlit personal-health dashboard),
and settles the frozen claims about it.

Modelling conventions:
* Python's dynamically typed JSON-like values are embedded as the inductive
  type `PyVal` (numbers, strings, lists, dicts).  Python `dict`s are
  association lists in insertion order; assignment to an existing key
  replaces the value in place, assignment to a fresh key appends — exactly
  Python's observable dict semantics for lookup/iteration.
* Python numbers (`int` and `float`) are embedded as `ℚ`.  Operations whose
  exact floating-point behaviour is irrelevant to every claim
  (`round(x, 1)` and pandas date-string normalisation) are taken as
  parameters of the functions that use them, so every theorem below holds
  for all choices of those operations.
* Code that can raise a Python exception is embedded in `Except String`;
  the embedded operations raise exactly where the Python code raises on the
  value shapes that actually occur in this repository (dict receivers for
  `in`/`[]`, numeric operands for comparisons, string receivers for
  `.strip()`).
* Dates `"YYYY-MM-DD"` are parsed to day ordinals (the standard
  days-from-civil-date conversion) so that `timedelta` arithmetic and
  chronological comparison of `datetime` values become integer arithmetic.
-/

/-- Embedding of the Python/JSON values handled by the repository:
numbers (int and float both as `ℚ`), strings, lists and dicts
(association lists in insertion order). -/
inductive PyVal where
  | num  (q : ℚ)
  | str  (s : String)
  | list (xs : List PyVal)
  | dict (kvs : List (String × PyVal))

/-- First-match lookup in a Python dict (association list). -/
def dictFind (kvs : List (String × PyVal)) (k : String) : Option PyVal :=
  (kvs.find? (fun kv => kv.1 == k)).map (fun kv => kv.2)

/-- Python dict assignment `d[k] = v`: replace the value of the first
binding of `k` in place, or append a fresh binding. -/
def setPair : List (String × PyVal) → String → PyVal → List (String × PyVal)
  | [], k, v => [(k, v)]
  | kv :: t, k, v => if kv.1 == k then (k, v) :: t else kv :: setPair t k v

/-- Dict assignment lifted to `PyVal` (identity on non-dicts; every call
site below is guarded so that the receiver is a dict). -/
def setItem (d : PyVal) (k : String) (v : PyVal) : PyVal :=
  match d with
  | .dict kvs => .dict (setPair kvs k v)
  | x => x

/-- Python `d[k]` on a dict: `KeyError` when the key is absent,
`TypeError` when the receiver is not a dict. -/
def getItem (d : PyVal) (k : String) : Except String PyVal :=
  match d with
  | .dict kvs =>
    match dictFind kvs k with
    | some v => .ok v
    | Option.none => .error "KeyError"
  | _ => .error "TypeError: not a dict"

/-- Python `k in d` for the dict receivers used by this repository. -/
def pyContains (d : PyVal) (k : String) : Except String Bool :=
  match d with
  | .dict kvs => .ok (dictFind kvs k).isSome
  | _ => .error "TypeError: argument not a dict"

/-- Numeric coercion: Python raises `TypeError` when a non-number is used
in an ordered comparison against a number. -/
def getNum (v : PyVal) : Except String ℚ :=
  match v with
  | .num q => .ok q
  | _ => .error "TypeError: not a number"

/-- String coercion (`AttributeError`/`TypeError` on non-strings). -/
def getStr (v : PyVal) : Except String String :=
  match v with
  | .str s => .ok s
  | _ => .error "TypeError: not a string"

/-- Python `isinstance(v, list)`. -/
def isPyList (v : PyVal) : Bool :=
  match v with
  | .list _ => true
  | _ => false

/-- Python `d.values()` (raises `AttributeError` on a non-dict). -/
def getEntries (v : PyVal) : Except String (List (String × PyVal)) :=
  match v with
  | .dict kvs => .ok kvs
  | _ => .error "AttributeError: not a dict"

/-- Dict lookup lifted to `PyVal` (`Option.none` for non-dicts). -/
def pyGet (v : PyVal) (k : String) : Option PyVal :=
  match v with
  | .dict kvs => dictFind kvs k
  | _ => Option.none

/-! ## Validator (`src/others/data_validator.py`, class `HealthDataValidator`) -/

/-- `HealthDataValidator.validate_mood_data`: requires the fields
`score`, `triggers`, `notes`; `1 <= score <= 10`; `triggers` a list. -/
def validate_mood_data (data : PyVal) : Except String Bool := do
  let f1 ← pyContains data "score"
  let f2 ← pyContains data "triggers"
  let f3 ← pyContains data "notes"
  if !(f1 && f2 && f3) then
    return false
  let score ← getNum (← getItem data "score")
  if !(1 ≤ score ∧ score ≤ 10 : Bool) then
    return false
  let triggers ← getItem data "triggers"
  if !(isPyList triggers) then
    return false
  return true

/-- `HealthDataValidator.validate_sleep_data`: requires `hours`,
`quality`, `issues`; `0 <= hours <= 24`; `1 <= quality <= 10`. -/
def validate_sleep_data (data : PyVal) : Except String Bool := do
  let f1 ← pyContains data "hours"
  let f2 ← pyContains data "quality"
  let f3 ← pyContains data "issues"
  if !(f1 && f2 && f3) then
    return false
  let hours ← getNum (← getItem data "hours")
  if !(0 ≤ hours ∧ hours ≤ 24 : Bool) then
    return false
  let quality ← getNum (← getItem data "quality")
  if !(1 ≤ quality ∧ quality ≤ 10 : Bool) then
    return false
  return true

/-- `HealthDataValidator.validate_diet_data`: requires `meals`,
`water_intake`, `supplements`; `0 <= water_intake <= 30`; and
`isinstance(data['meals'], list)`. -/
def validate_diet_data (data : PyVal) : Except String Bool := do
  let f1 ← pyContains data "meals"
  let f2 ← pyContains data "water_intake"
  let f3 ← pyContains data "supplements"
  if !(f1 && f2 && f3) then
    return false
  let water ← getNum (← getItem data "water_intake")
  if !(0 ≤ water ∧ water ≤ 30 : Bool) then
    return false
  let meals ← getItem data "meals"
  if !(isPyList meals) then
    return false
  return true

/-- `all(0 <= intensity <= 10 for intensity in vals)`: short-circuits at
the first failing value, exactly like Python's generator expression. -/
def intensitiesInRange : List PyVal → Except String Bool
  | [] => .ok true
  | v :: vs => do
    let q ← getNum v
    if !(0 ≤ q ∧ q ≤ 10 : Bool) then
      return false
    intensitiesInRange vs

/-- `HealthDataValidator.validate_symptoms_data`: requires `physical`,
`emotional`, **`intensity`**; every value of the `physical` and
`emotional` dicts must lie in `[0, 10]`. -/
def validate_symptoms_data (data : PyVal) : Except String Bool := do
  let f1 ← pyContains data "physical"
  let f2 ← pyContains data "emotional"
  let f3 ← pyContains data "intensity"
  if !(f1 && f2 && f3) then
    return false
  let phys ← getEntries (← getItem data "physical")
  let okPhys ← intensitiesInRange (phys.map (fun kv => kv.2))
  if !okPhys then
    return false
  let emo ← getEntries (← getItem data "emotional")
  let okEmo ← intensitiesInRange (emo.map (fun kv => kv.2))
  if !okEmo then
    return false
  return true

/-- `data['intensity'] not in {'Low', 'Moderate', 'High'}`: membership of
an arbitrary value in a set of strings — false for hashable non-strings,
`TypeError` for unhashable values (lists, dicts). -/
def exerciseIntensityOk (v : PyVal) : Except String Bool :=
  match v with
  | .str s => .ok (s == "Low" || s == "Moderate" || s == "High")
  | .num _ => .ok false
  | .list _ => .error "TypeError: unhashable"
  | .dict _ => .error "TypeError: unhashable"

/-- `HealthDataValidator.validate_exercise_data`: requires `type`,
`duration`, `intensity`; `0 <= duration <= 300`; intensity in
`{Low, Moderate, High}`. -/
def validate_exercise_data (data : PyVal) : Except String Bool := do
  let f1 ← pyContains data "type"
  let f2 ← pyContains data "duration"
  let f3 ← pyContains data "intensity"
  if !(f1 && f2 && f3) then
    return false
  let dur ← getNum (← getItem data "duration")
  if !(0 ≤ dur ∧ dur ≤ 300 : Bool) then
    return false
  let inten ← exerciseIntensityOk (← getItem data "intensity")
  if !inten then
    return false
  return true

section ValidatorSanityChecks

example : validate_mood_data (.dict [("score", .num 5), ("triggers", .list []), ("notes", .str "")]) = .ok true := by rfl

example : validate_mood_data (.dict [("score", .num 11), ("triggers", .list []), ("notes", .str "")]) = .ok false := by rfl

example : validate_diet_data (.dict [("meals", .dict []), ("water_intake", .num 6), ("supplements", .list [])]) = .ok false := by rfl

end ValidatorSanityChecks

/-! ## Preprocessor (`src/others/data_validator.py`, class `DataPreprocessor`) -/

/-- Character class of Python `str.strip()` (the ASCII fragment of
Python's whitespace; the repository's notes fields are ASCII text). -/
def isPyWhitespace (c : Char) : Bool :=
  c == ' ' || c == '\t' || c == '\n' || c == '\r' || c == '\x0b' || c == '\x0c'

/-- Python `s.strip()`: drop leading and trailing whitespace. -/
def pyStrip (s : String) : String :=
  String.mk (((s.toList.dropWhile isPyWhitespace).reverse.dropWhile isPyWhitespace).reverse)

/-- `DataPreprocessor.normalize_dates`: when a `date` field is present,
replace it by its normalised form.  The pandas normalisation
`pd.to_datetime(x).strftime('%Y-%m-%d')` is the parameter `nd` (every
`date` in this repository is a string; no claim depends on the exact
normalised spelling). -/
def normalize_dates (nd : String → String) (data : PyVal) : Except String PyVal := do
  let hasDate ← pyContains data "date"
  if hasDate then
    let d ← getStr (← getItem data "date")
    return setItem data "date" (.str (nd d))
  return data

/-- `DataPreprocessor.standardize_scores`: round `mood.score` and
`sleep.quality` to one decimal.  Python's `round(float(x), 1)` is the
parameter `rnd` (the repository only ever stores numeric scores; no claim
depends on the exact rounding). -/
def standardize_scores (rnd : ℚ → ℚ) (data : PyVal) : Except String PyVal := do
  let d1 ← (do
    let hasMood ← pyContains data "mood"
    if hasMood then
      let mood ← getItem data "mood"
      let hasScore ← pyContains mood "score"
      if hasScore then
        let q ← getNum (← getItem mood "score")
        return setItem data "mood" (setItem mood "score" (.num (rnd q)))
      return data
    return data)
  let hasSleep ← pyContains d1 "sleep"
  if hasSleep then
    let sleep ← getItem d1 "sleep"
    let hasQ ← pyContains sleep "quality"
    if hasQ then
      let q ← getNum (← getItem sleep "quality")
      return setItem d1 "sleep" (setItem sleep "quality" (.num (rnd q)))
    return d1
  return d1

/-- `DataPreprocessor.clean_text_fields`: strip `mood.notes` and
`diet.notes` when present (`.strip()` raises on non-strings). -/
def clean_text_fields (data : PyVal) : Except String PyVal := do
  let d1 ← (do
    let hasMood ← pyContains data "mood"
    if hasMood then
      let mood ← getItem data "mood"
      let hasNotes ← pyContains mood "notes"
      if hasNotes then
        let s ← getStr (← getItem mood "notes")
        return setItem data "mood" (setItem mood "notes" (.str (pyStrip s)))
      return data
    return data)
  let hasDiet ← pyContains d1 "diet"
  if hasDiet then
    let diet ← getItem d1 "diet"
    let hasNotes ← pyContains diet "notes"
    if hasNotes then
      let s ← getStr (← getItem diet "notes")
      return setItem d1 "diet" (setItem diet "notes" (.str (pyStrip s)))
    return d1
  return d1

/-- `DataPreprocessor.process_health_record`:
`normalize_dates` then `standardize_scores` then `clean_text_fields`. -/
def process_health_record (nd : String → String) (rnd : ℚ → ℚ) (data : PyVal) :
    Except String PyVal := do
  clean_text_fields (← standardize_scores rnd (← normalize_dates nd data))

/-! ## Claim C6 -/

/-- Claim C6: `validate_mood_data`, on mood data carrying the required
fields `score` (numeric), `triggers` (a list) and `notes`, accepts
exactly the scores in the closed interval `[1, 10]`; in particular it
rejects `0` and `11` and accepts `1` and `10`. -/
theorem C6_mood_score_closed_range (score : ℚ) (triggers : List PyVal) (notes : String) :
    validate_mood_data (.dict [("score", .num score), ("triggers", .list triggers), ("notes", .str notes)])
      = .ok (decide (1 ≤ score ∧ score ≤ 10)) ∧
    validate_mood_data (.dict [("score", .num 0), ("triggers", .list triggers), ("notes", .str notes)])
      = .ok false ∧
    validate_mood_data (.dict [("score", .num 11), ("triggers", .list triggers), ("notes", .str notes)])
      = .ok false ∧
    validate_mood_data (.dict [("score", .num 1), ("triggers", .list triggers), ("notes", .str notes)])
      = .ok true ∧
    validate_mood_data (.dict [("score", .num 10), ("triggers", .list triggers), ("notes", .str notes)])
      = .ok true := by
  refine ⟨?_, rfl, rfl, rfl, rfl⟩
  simp only [validate_mood_data, pyContains, getItem, getNum, isPyList, dictFind,
    List.find?, bind, Except.bind, pure, Except.pure]
  by_cases h : 1 ≤ score ∧ score ≤ 10 <;> simp [h]

/-! ## Claim C1 -/

/-- Mood section shaped exactly as the spec data model, all fields in range. -/
def specMood : PyVal :=
  .dict [("score", .num 7), ("triggers", .list [.str "Work Stress"]), ("notes", .str "fine")]

/-- Sleep section shaped exactly as the spec data model, all fields in range. -/
def specSleep : PyVal :=
  .dict [("quality", .num 7), ("hours", .num 8), ("issues", .list [.str "None"])]

/-- Diet section shaped exactly as the spec data model (`meals` is a
mapping meal-name to categories/notes, as the repository itself builds it
in `DataStore.generate_realistic_data` and `collect_form_data`). -/
def specDiet : PyVal :=
  .dict [("meals", .dict [("breakfast",
            .dict [("categories", .list [.str "High Protein"]), ("notes", .str "")])]),
         ("water_intake", .num 6), ("supplements", .list [.str "Vitamin D"])]

/-- Symptoms section shaped exactly as the spec data model: keys
`physical`, `emotional`, `notes`, every intensity inside `[0, 10]`. -/
def specSymptoms : PyVal :=
  .dict [("physical", .dict [("hot_flashes", .num 5)]),
         ("emotional", .dict [("anxiety", .num 4)]),
         ("notes", .str "")]

/-- Exercise section shaped exactly as the spec data model. -/
def specExercise : PyVal :=
  .dict [("type", .str "Walking"), ("duration", .num 30), ("intensity", .str "Low")]

/-- Claim C1: evaluation of the five validators at a record shaped exactly
as the spec's HealthRecord data model with every required field present
and every numeric field in range.  The mood, sleep and exercise
validators accept, but `validate_diet_data` rejects (it demands that
`meals` be a Python list although the data model — and every record the
repository itself constructs — makes it a mapping), and
`validate_symptoms_data` rejects (it demands a vestigial `intensity` key
that the data model does not contain and that the validator never reads).
So validation does not reject only on missing fields and out-of-range
numerics, contrary to the claim. -/
theorem C1_spec_shaped_record_rejected :
    validate_mood_data specMood = .ok true ∧
    validate_sleep_data specSleep = .ok true ∧
    validate_exercise_data specExercise = .ok true ∧
    validate_diet_data specDiet = .ok false ∧
    validate_symptoms_data specSymptoms = .ok false :=
  ⟨rfl, rfl, rfl, rfl, rfl⟩

/-! ## Record Store (`src/utils/data_store.py`) -/

/-- `DataStore.add_health_record` (the effective definition, at line 252
of `data_store.py`): append the record, then keep only the last 30
entries (`records[-30:]`) when the length exceeds 30. -/
def add_health_record (records : List PyVal) (record : PyVal) : List PyVal :=
  let appended := records ++ [record]
  if 30 < appended.length then appended.drop (appended.length - 30) else appended

lemma add_health_record_eq_lastN (s : List PyVal) (r : PyVal) :
    add_health_record s r = (s ++ [r]).drop ((s ++ [r]).length - 30) := by
  show (if 30 < (s ++ [r]).length then (s ++ [r]).drop ((s ++ [r]).length - 30) else s ++ [r]) = _
  by_cases h : 30 < (s ++ [r]).length
  · rw [if_pos h]
  · rw [if_neg h, Nat.sub_eq_zero_of_le (Nat.le_of_not_lt h), List.drop_zero]

lemma add_health_record_length_le (s : List PyVal) (r : PyVal) :
    (add_health_record s r).length ≤ 30 := by
  rw [add_health_record_eq_lastN, List.length_drop]
  omega

lemma lastN_append_lastN (n : Nat) (xs ys : List PyVal) :
    ((xs.drop (xs.length - n)) ++ ys).drop (((xs.drop (xs.length - n)) ++ ys).length - n)
      = (xs ++ ys).drop ((xs ++ ys).length - n) := by
  by_cases hx : xs.length ≤ n
  · simp [Nat.sub_eq_zero_of_le hx]
  · have hn : n ≤ xs.length := Nat.le_of_not_le hx
    have hdl : (xs.drop (xs.length - n)).length = n := by
      simp [Nat.sub_sub_self hn]
    have key : xs ++ ys = xs.take (xs.length - n) ++ ((xs.drop (xs.length - n)) ++ ys) := by
      rw [← List.append_assoc, List.take_append_drop]
    have h1 : ((xs.drop (xs.length - n)) ++ ys).length - n = ys.length := by
      simp [hdl]
    have h2 : (xs ++ ys).length - n = (xs.take (xs.length - n)).length + ys.length := by
      simp; omega
    rw [h1, h2]
    conv_rhs => rw [key]
    rw [List.drop_append]

/-- Claim C4: after any finite sequence of `add_health_record` calls
starting from a store holding at most 30 records, the store length never
exceeds 30, and the retained entries are exactly the last 30 of the full
append history (oldest evicted first). -/
theorem C4_store_cap (init rs : List PyVal) (hinit : init.length ≤ 30) :
    (List.foldl add_health_record init rs).length ≤ 30 ∧
    List.foldl add_health_record init rs = (init ++ rs).drop ((init ++ rs).length - 30) := by
  have main : ∀ (rs init : List PyVal), init.length ≤ 30 →
      List.foldl add_health_record init rs = (init ++ rs).drop ((init ++ rs).length - 30) := by
    intro rs
    induction rs with
    | nil =>
      intro init h
      simp [Nat.sub_eq_zero_of_le h]
    | cons r rest ih =>
      intro init _h
      have step : List.foldl add_health_record init (r :: rest)
          = List.foldl add_health_record (add_health_record init r) rest := rfl
      rw [step, ih _ (add_health_record_length_le init r), add_health_record_eq_lastN,
        lastN_append_lastN 30 (init ++ [r]) rest]
      simp
  refine ⟨?_, main rs init hinit⟩
  rw [main rs init hinit, List.length_drop]
  omega

/-- Thirty-one distinct records, to exercise the eviction path. -/
def exRecords31 : List PyVal := (List.range 31).map (fun i => PyVal.num i)

/-- Witness for C4 at a concrete input: pushing 31 records into an empty
store keeps only the last 30 (the first record is evicted). -/
theorem C4_store_cap_witness :
    (List.foldl add_health_record [] exRecords31).length ≤ 30 ∧
    List.foldl add_health_record [] exRecords31
      = (([] : List PyVal) ++ exRecords31).drop ((([] : List PyVal) ++ exRecords31).length - 30) :=
  C4_store_cap [] exRecords31 (by decide)

/-! ## Python dict semantics: lookup after repeated assignment -/

lemma dictFind_cons (kv : String × PyVal) (t : List (String × PyVal)) (k : String) :
    dictFind (kv :: t) k = if kv.1 == k then some kv.2 else dictFind t k := by
  cases h : kv.1 == k <;> simp [dictFind, List.find?_cons, h]

lemma dictFind_setPair (kvs : List (String × PyVal)) (k k' : String) (v : PyVal) :
    dictFind (setPair kvs k v) k' = if k = k' then some v else dictFind kvs k' := by
  induction kvs with
  | nil =>
    by_cases h : k = k' <;> simp [setPair, dictFind, List.find?_cons, h]
  | cons kv t ih =>
    by_cases h1 : kv.1 == k
    · have hk : kv.1 = k := by simpa using h1
      rw [setPair]
      rw [if_pos h1, dictFind_cons, dictFind_cons]
      by_cases h2 : k = k'
      · simp [h2]
      · have : ¬ (kv.1 == k') := by simp [hk, h2]
        simp [h2, this]
    · have hk : kv.1 ≠ k := by simpa using h1
      rw [setPair]
      rw [if_neg (by simpa using h1), dictFind_cons, dictFind_cons, ih]
      by_cases h2 : k = k'
      · have : ¬ (kv.1 == k') := by simp [h2 ▸ hk]
        simp [h2, this]
      · simp [h2]

/-- Looking a key up after folding a sequence of dict assignments over an
initial dict: the value of the last assignment to that key wins, and keys
never assigned keep their initial value. -/
lemma dictFind_foldl_setPair (l init : List (String × PyVal)) (k : String) :
    dictFind (l.foldl (fun c kv => setPair c kv.1 kv.2) init) k
      = match l.reverse.find? (fun kv => kv.1 == k) with
        | some kv => some kv.2
        | Option.none => dictFind init k := by
  induction l generalizing init with
  | nil => simp
  | cons kv t ih =>
    rw [List.foldl_cons, ih, List.reverse_cons, List.find?_append]
    cases hf : t.reverse.find? (fun kv => kv.1 == k) with
    | some kv' => simp [hf, Option.or]
    | none =>
      by_cases hk : kv.1 = k
      · simp [hf, Option.or, List.find?_cons, hk, dictFind_setPair]
      · have : ¬ (kv.1 == k) := by simpa using hk
        simp [hf, Option.or, List.find?_cons, this, dictFind_setPair, hk]

lemma mem_values_of_dictFind (kvs : List (String × PyVal)) (k : String) (v : PyVal)
    (h : dictFind kvs k = some v) : v ∈ kvs.map (fun kv => kv.2) := by
  unfold dictFind at h
  cases hf : kvs.find? (fun kv => kv.1 == k) with
  | none => rw [hf] at h; simp at h
  | some kv =>
    rw [hf] at h
    simp at h
    exact h ▸ List.mem_map_of_mem _ (List.mem_of_find?_eq_some hf)

lemma except_bind_eq_ok {α β : Type} (a : Except String α) (f : α → Except String β) (b : β)
    (h : a >>= f = .ok b) : ∃ x, a = .ok x ∧ f x = .ok b := by
  cases a with
  | error e => exact absurd h (by simp [bind, Except.bind])
  | ok x => exact ⟨x, rfl, by simpa [bind, Except.bind] using h⟩

/-! ## Claim C10 -/

/-- Python `cur.update(upd)`: assign every binding of `upd` into `cur`,
in iteration order. -/
def dict_update (cur upd : List (String × PyVal)) : List (String × PyVal) :=
  upd.foldl (fun c kv => setPair c kv.1 kv.2) cur

/-- `DataManager.update_user_profile`: load the stored profile,
`current_data.update(data)`, save the result.  Net effect on the stored
profile object. -/
def update_user_profile (cur upd : List (String × PyVal)) : List (String × PyVal) :=
  dict_update cur upd

/-- Claim C10: `update_user_profile` merges the partial update into the
stored profile: a profile key absent from the update keeps its previous
value, and a key present in the update takes the updated value. -/
theorem C10_profile_update_merges (cur upd : List (String × PyVal)) (k : String) :
    (upd.find? (fun kv => kv.1 == k) = Option.none →
      dictFind (update_user_profile cur upd) k = dictFind cur k) ∧
    (∀ v : PyVal, upd.reverse.find? (fun kv => kv.1 == k) = some (k, v) →
      dictFind (update_user_profile cur upd) k = some v) := by
  constructor
  · intro habs
    have hrev : upd.reverse.find? (fun kv => kv.1 == k) = Option.none := by
      rw [List.find?_eq_none] at habs ⊢
      intro x hx
      exact habs x (List.mem_reverse.mp hx)
    unfold update_user_profile dict_update
    rw [dictFind_foldl_setPair, hrev]
  · intro v hlast
    unfold update_user_profile dict_update
    rw [dictFind_foldl_setPair, hlast]

/-- Witness for C10 at a concrete profile: updating `age` leaves `name`
at its stored value and sets `age` to the new value. -/
theorem C10_profile_update_merges_witness :
    dictFind (update_user_profile
        [("name", .str "Jane Doe"), ("age", .num 52)] [("age", .num 53)]) "name"
      = dictFind [("name", .str "Jane Doe"), ("age", .num 52)] "name" ∧
    dictFind (update_user_profile
        [("name", .str "Jane Doe"), ("age", .num 52)] [("age", .num 53)]) "age"
      = some (.num 53) :=
  ⟨(C10_profile_update_merges [("name", .str "Jane Doe"), ("age", .num 52)]
      [("age", .num 53)] "name").1 rfl,
   (C10_profile_update_merges [("name", .str "Jane Doe"), ("age", .num 52)]
      [("age", .num 53)] "age").2 (.num 53) rfl⟩

/-! ## Claim C2: `SyncManager._merge_records` -/

lemma pyGet_of_getItem_ok (r : PyVal) (k : String) (v : PyVal)
    (h : getItem r k = .ok v) : pyGet r k = some v := by
  cases r with
  | num q => simp [getItem] at h
  | str s => simp [getItem] at h
  | list xs => simp [getItem] at h
  | dict kvs =>
    simp only [getItem] at h
    simp only [pyGet]
    cases hf : dictFind kvs k with
    | none => rw [hf] at h; exact absurd h (by simp)
    | some val => rw [hf] at h; simpa using h

lemma getStr_ok_eq (v : PyVal) (s : String) (h : getStr v = .ok s) : v = .str s := by
  cases v <;> simp [getStr] at h
  exact congrArg PyVal.str h

/-- The dict comprehension `{record["date"]: record for record in all_records}`,
as the association list of (date, record) pairs in iteration order
(`KeyError`/`TypeError` propagate exactly as in Python). -/
def keyRecords : List PyVal → Except String (List (String × PyVal))
  | [] => .ok []
  | r :: rs => do
    let d ← getItem r "date"
    let s ← getStr d
    let ks ← keyRecords rs
    .ok ((s, r) :: ks)

/-- `SyncManager._merge_records`: concatenate `local + cloud`, build the
date-keyed dict (later entries overwrite earlier ones), return its list
of values. -/
def merge_records (local_records cloud_records : List PyVal) : Except String (List PyVal) := do
  let keyed ← keyRecords (local_records ++ cloud_records)
  .ok ((keyed.foldl (fun c kv => setPair c kv.1 kv.2) []).map (fun kv => kv.2))

/-- Does a record carry the date `d`? -/
def recHasDate (r : PyVal) (d : String) : Bool :=
  match pyGet r "date" with
  | some (.str s) => s == d
  | _ => false

/-- The last record of a list carrying the date `d`. -/
def lastWithDate (l : List PyVal) (d : String) : Option PyVal :=
  l.reverse.find? (fun r => recHasDate r d)

lemma keyRecords_reverse_find (l : List PyVal) (ks : List (String × PyVal)) (d : String)
    (h : keyRecords l = .ok ks) :
    (ks.reverse.find? (fun kv => kv.1 == d)).map (fun kv => kv.2)
      = l.reverse.find? (fun r => recHasDate r d) := by
  induction l generalizing ks with
  | nil =>
    simp [keyRecords] at h
    subst h
    simp
  | cons r rs ih =>
    cases hg : getItem r "date" with
    | error e => simp [keyRecords, hg, bind, Except.bind] at h
    | ok dv =>
      cases hs : getStr dv with
      | error e => simp [keyRecords, hg, hs, bind, Except.bind] at h
      | ok s =>
        cases hk : keyRecords rs with
        | error e => simp [keyRecords, hg, hs, hk, bind, Except.bind] at h
        | ok ks' =>
          have hks : ks = (s, r) :: ks' := by
            simp [keyRecords, hg, hs, hk, bind, Except.bind, pure, Except.pure] at h
            exact h.symm
          subst hks
          have hdate : pyGet r "date" = some (.str s) := by
            have := pyGet_of_getItem_ok r "date" dv hg
            rwa [getStr_ok_eq dv s hs] at this
          rw [List.reverse_cons, List.reverse_cons, List.find?_append, List.find?_append]
          cases hf : ks'.reverse.find? (fun kv => kv.1 == d) with
          | some kv' =>
            have hmain := ih ks' hk
            rw [hf] at hmain
            simp only [Option.map_some'] at hmain
            rw [← hmain]
            simp
          | none =>
            have hmain := ih ks' hk
            rw [hf] at hmain
            simp only [Option.map_none'] at hmain
            rw [← hmain]
            by_cases hsd : s = d
            · simp [List.find?_cons, hsd, recHasDate, hdate]
            · have h1 : ¬ (s == d) := by simpa using hsd
              have h2 : recHasDate r d = false := by simp [recHasDate, hdate, hsd]
              simp [List.find?_cons, h1, h2]

/-- Claim C2: merging builds the date-keyed mapping by iterating
`local + cloud` in that order, so whenever a date occurs in both lists
the merged result contains the cloud-side record for that date
(regardless of recency). -/
theorem C2_merge_cloud_overwrites (local_records cloud_records : List PyVal) (d : String)
    (c : PyVal) (merged : List PyVal)
    (hmerge : merge_records local_records cloud_records = .ok merged)
    (_hlocal : ∃ r ∈ local_records, recHasDate r d)
    (hcloud : lastWithDate cloud_records d = some c) :
    c ∈ merged := by
  cases hk : keyRecords (local_records ++ cloud_records) with
  | error e => simp [merge_records, hk, bind, Except.bind] at hmerge
  | ok keyed =>
    have hmerged : merged
        = (keyed.foldl (fun c kv => setPair c kv.1 kv.2) []).map (fun kv => kv.2) := by
      simp [merge_records, hk, bind, Except.bind, pure, Except.pure] at hmerge
      exact hmerge.symm
    have hall : (local_records ++ cloud_records).reverse.find? (fun r => recHasDate r d)
        = some c := by
      rw [List.reverse_append, List.find?_append]
      unfold lastWithDate at hcloud
      simp [hcloud, Option.or]
    have hfind := keyRecords_reverse_find _ keyed d hk
    rw [hall] at hfind
    have hdict : dictFind (keyed.foldl (fun c kv => setPair c kv.1 kv.2) []) d = some c := by
      rw [dictFind_foldl_setPair]
      cases hf : keyed.reverse.find? (fun kv => kv.1 == d) with
      | none => rw [hf] at hfind; simp at hfind
      | some kv =>
        rw [hf] at hfind
        simpa using hfind
    rw [hmerged]
    exact mem_values_of_dictFind _ d c hdict

/-- Witness for C2 at the spec's concrete scenario: the date
`2024-01-01` occurs in both lists and the merged result contains the
cloud-side record. -/
theorem C2_merge_cloud_overwrites_witness :
    PyVal.dict [("date", .str "2024-01-01"), ("source", .str "cloud")]
      ∈ [PyVal.dict [("date", .str "2024-01-01"), ("source", .str "cloud")]] :=
  C2_merge_cloud_overwrites
    [.dict [("date", .str "2024-01-01"), ("source", .str "local")]]
    [.dict [("date", .str "2024-01-01"), ("source", .str "cloud")]]
    "2024-01-01"
    (.dict [("date", .str "2024-01-01"), ("source", .str "cloud")])
    [.dict [("date", .str "2024-01-01"), ("source", .str "cloud")]]
    rfl
    ⟨.dict [("date", .str "2024-01-01"), ("source", .str "local")], by simp, rfl⟩
    rfl

/-! ## Dates

`datetime.strptime(x, "%Y-%m-%d")` / `pd.to_datetime` parse a
`"YYYY-MM-DD"` string into a calendar date; `timedelta` arithmetic and
chronological comparison act on the corresponding day ordinal.  We parse
the three dash-separated numeric components and convert them with the
standard civil-calendar day-ordinal formulas (day 0 = 1970-01-01). -/

/-- Split a character list at every dash. -/
def splitDash : List Char → List (List Char)
  | [] => [[]]
  | c :: cs =>
    let r := splitDash cs
    if c = '-' then [] :: r
    else
      match r with
      | [] => [[c]]
      | g :: gs => (c :: g) :: gs

/-- Decimal value of a non-empty digit group (`Option.none` otherwise). -/
def digitsToNat? (cs : List Char) : Option Nat :=
  if cs.isEmpty then Option.none
  else
    cs.foldl
      (fun acc c =>
        match acc with
        | some n => if '0' ≤ c ∧ c ≤ '9' then some (n * 10 + (c.toNat - 48)) else Option.none
        | Option.none => Option.none)
      (some 0)

/-- Parse `"YYYY-MM-DD"` into numeric components (`ValueError` on
malformed input, as `strptime`/`to_datetime` raise). -/
def parseDate (s : String) : Except String (Nat × Nat × Nat) :=
  match splitDash s.toList with
  | [ys, ms, ds] =>
    match digitsToNat? ys, digitsToNat? ms, digitsToNat? ds with
    | some y, some m, some d => .ok (y, m, d)
    | _, _, _ => .error "ValueError: invalid date"
  | _ => .error "ValueError: invalid date"

/-- Day ordinal of a civil date (days since 1970-01-01). -/
def days_from_civil (y m d : Nat) : Int :=
  let y2 := if m ≤ 2 then y - 1 else y
  let era := y2 / 400
  let yoe := y2 % 400
  let mp := (m + 9) % 12
  let doy := (153 * mp + 2) / 5 + d - 1
  let doe := yoe * 365 + yoe / 4 - yoe / 100 + doy
  (era * 146097 + doe : Int) - 719468

/-- Civil date of a day ordinal (inverse of `days_from_civil` on the
modern dates this repository handles). -/
def civil_from_days (z : Int) : Nat × Nat × Nat :=
  let z2 := (z + 719468).toNat
  let era := z2 / 146097
  let doe := z2 % 146097
  let yoe := (doe - doe / 1460 + doe / 36524 - doe / 146096) / 365
  let y := yoe + era * 400
  let doy := doe - (365 * yoe + yoe / 4 - yoe / 100)
  let mp := (5 * doy + 2) / 153
  let d := doy - (153 * mp + 2) / 5 + 1
  let m := if mp < 10 then mp + 3 else mp - 9
  (if m ≤ 2 then y + 1 else y, m, d)

/-- Day ordinal of a `"YYYY-MM-DD"` date string. -/
def dateOrdinal (s : String) : Except String Int := do
  let (y, m, d) ← parseDate s
  .ok (days_from_civil y m d)

def padTo (width : Nat) (n : Nat) : String :=
  let s := toString n
  if s.length < width then String.mk (List.replicate (width - s.length) '0') ++ s else s

/-- `strftime('%Y-%m-%d')` of a day ordinal. -/
def formatDate (z : Int) : String :=
  let c := civil_from_days z
  padTo 4 c.1 ++ "-" ++ padTo 2 c.2.1 ++ "-" ++ padTo 2 c.2.2

section DateSanityChecks

example : days_from_civil 1970 1 1 = 0 := by decide
example : days_from_civil 2024 1 1 = 19723 := by decide
example : dateOrdinal "2024-01-01" = .ok 19723 := by rfl
example : formatDate 19723 = "2024-01-01" := by rfl
example : days_from_civil 2024 3 1 - days_from_civil 2024 2 28 = 2 := by decide

end DateSanityChecks

/-! ## Claim C7: `SyncManager._get_latest_feedback` -/

/-- The sort key `datetime.strptime(x["date"], "%Y-%m-%d")`, as the day
ordinal of the candidate's date string. -/
def feedbackDate (f : PyVal) : Except String Int := do
  dateOrdinal (← getStr (← getItem f "date"))

/-- `SyncManager._get_latest_feedback(local_feedback, cloud_feedback)`:
empty cloud list returns the local side; empty local dict returns the
last cloud entry (or an empty dict); otherwise
`max([local_feedback, cloud_feedback[-1]], key=strptime(date))`, which
returns the cloud entry exactly when its date is strictly later. -/
def get_latest_feedback (local_feedback : List (String × PyVal)) (cloud_feedback : List PyVal) :
    Except String PyVal :=
  if cloud_feedback.isEmpty then .ok (.dict local_feedback)
  else if local_feedback.isEmpty then
    .ok (match cloud_feedback.getLast? with
         | some x => x
         | Option.none => .dict [])
  else
    match cloud_feedback.getLast? with
    | Option.none => .error "IndexError"
    | some cloud_latest => do
      let dl ← feedbackDate (.dict local_feedback)
      let dc ← feedbackDate cloud_latest
      .ok (if dl < dc then cloud_latest else .dict local_feedback)

/-- Claim C7: when both a local feedback object and a non-empty cloud
feedback list are present, the one whose parsed date is chronologically
later is returned; when only one side is present that side is returned;
when neither is present the result is empty (the empty local dict). -/
theorem C7_latest_feedback (local_feedback : List (String × PyVal)) (cloud_feedback : List PyVal) :
    (cloud_feedback = [] →
      get_latest_feedback local_feedback cloud_feedback = .ok (.dict local_feedback)) ∧
    (∀ c cs, local_feedback = [] → cloud_feedback = cs ++ [c] →
      get_latest_feedback local_feedback cloud_feedback = .ok c) ∧
    (∀ c cs dl dc, local_feedback ≠ [] → cloud_feedback = cs ++ [c] →
      feedbackDate (.dict local_feedback) = .ok dl → feedbackDate c = .ok dc →
      ((dl < dc → get_latest_feedback local_feedback cloud_feedback = .ok c) ∧
       (dc < dl →
        get_latest_feedback local_feedback cloud_feedback = .ok (.dict local_feedback)))) := by
  refine ⟨?_, ?_, ?_⟩
  · intro h
    subst h
    simp [get_latest_feedback]
  · intro c cs hl hc
    subst hl
    subst hc
    simp [get_latest_feedback, List.getLast?_concat]
  · intro c cs dl dc hl hc hdl hdc
    subst hc
    have hne : ((cs ++ [c]).isEmpty) = false := by simp
    have hlne : local_feedback.isEmpty = false := by
      cases local_feedback with
      | nil => exact absurd rfl hl
      | cons a t => rfl
    constructor
    · intro hlt
      simp only [get_latest_feedback, hne, hlne, Bool.false_eq_true, if_false,
        List.getLast?_concat, hdl, hdc, bind, Except.bind]
      rw [if_pos hlt]
    · intro hgt
      simp only [get_latest_feedback, hne, hlne, Bool.false_eq_true, if_false,
        List.getLast?_concat, hdl, hdc, bind, Except.bind]
      rw [if_neg (by omega : ¬ dl < dc)]

/-- Witness for C7 at concrete feedback objects: with a local feedback
dated 2024-01-02 and a cloud feedback dated 2024-01-05 both present, the
cloud one (chronologically later) is returned. -/
theorem C7_latest_feedback_witness :
    get_latest_feedback [("date", .str "2024-01-02")]
        [.dict [("date", .str "2024-01-05")]]
      = .ok (.dict [("date", .str "2024-01-05")]) :=
  ((C7_latest_feedback [("date", .str "2024-01-02")]
      [.dict [("date", .str "2024-01-05")]]).2.2
    (.dict [("date", .str "2024-01-05")]) [] 19724 19727
    (by simp) rfl rfl rfl).1 (by decide)

/-! ## Claim C5: `DataStore.get_data_for_period` -/

/-- `pd.to_datetime(record['date'])` as a day ordinal. -/
def recDateOrd (r : PyVal) : Except String Int := do
  dateOrdinal (← getStr (← getItem r "date"))

/-- Date ordinals of a record list, in order (parse errors propagate,
as `pd.to_datetime` raises). -/
def datesOf : List PyVal → Except String (List Int)
  | [] => .ok []
  | r :: rs => do
    let d ← recDateOrd r
    let ds ← datesOf rs
    .ok (d :: ds)

/-- Python `row[p1][p2]` as an `Option` (used in statements only). -/
def colVal (p1 p2 : String) (r : PyVal) : Option PyVal :=
  (pyGet r p1).bind (fun s => pyGet s p2)

/-- `filtered_df.loc[:, key] = filtered_df.apply(lambda x: x[p1][p2], axis=1)`:
one pass over the filtered rows, extracting the nested value (raising
`KeyError`/`TypeError` exactly where the lambda does) and appending it
as a new flat column of each row. -/
def addCol (key p1 p2 : String) : List (PyVal × Int) → Except String (List (PyVal × Int))
  | [] => .ok []
  | (r, d) :: t => do
    let v ← getItem (← getItem r p1) p2
    let rest ← addCol key p1 p2 t
    .ok ((setItem r key v, d) :: rest)

/-- `DataStore.get_data_for_period` (the effective definition, at line
225 of `data_store.py`): empty store gives an empty frame; otherwise
keep the records whose date is at least the maximum date minus 6 days
(`'week'`) or 29 days (any other period); then add a flat `mood_score`
column copied from `mood.score` and a flat `sleep_quality` column copied
from `sleep.quality` to every returned row (raising when a filtered
record lacks them, as the `apply` lambdas do); finally re-serialise the
date column with `strftime('%Y-%m-%d')`. -/
def get_data_for_period (period : String) (records : List PyVal) : Except String (List PyVal) :=
  if records.isEmpty then .ok []
  else do
    let ds ← datesOf records
    match ds.max? with
    | Option.none => .error "empty frame"
    | some endD =>
      let startD := endD - (if period == "week" then 6 else 29)
      let filtered := (records.zip ds).filter (fun p => decide (startD ≤ p.2))
      let c1 ← addCol "mood_score" "mood" "score" filtered
      let c2 ← addCol "sleep_quality" "sleep" "quality" c1
      .ok (c2.map (fun p => setItem p.1 "date" (.str (formatDate p.2))))

/-- Does the record's date ordinal reach the cutoff? -/
def dateAtLeast (c : Int) (r : PyVal) : Bool :=
  match recDateOrd r with
  | .ok d => decide (c ≤ d)
  | .error _ => false

/-- A record whose date string is already in normalised
`YYYY-MM-DD` form (re-serialising it is the identity). -/
def normDateRec (r : PyVal) : PyVal :=
  match recDateOrd r with
  | .ok d => setItem r "date" (.str (formatDate d))
  | .error _ => r

lemma getItem_of_pyGet_some (r : PyVal) (k : String) (v : PyVal)
    (h : pyGet r k = some v) : getItem r k = .ok v := by
  cases r with
  | dict kvs =>
    simp only [pyGet] at h
    simp [getItem, h]
  | num q => simp [pyGet] at h
  | str s => simp [pyGet] at h
  | list xs => simp [pyGet] at h

lemma pyGet_setItem_ne (r : PyVal) (k k' : String) (v : PyVal) (h : k ≠ k') :
    pyGet (setItem r k v) k' = pyGet r k' := by
  cases r <;> simp [setItem, pyGet, dictFind_setPair, h]

lemma pyGet_setItem_same (kvs : List (String × PyVal)) (k : String) (v : PyVal) :
    pyGet (setItem (.dict kvs) k v) k = some v := by
  simp [setItem, pyGet, dictFind_setPair]

lemma colVal_setItem_ne (p1 p2 k : String) (v : PyVal) (r : PyVal) (h : k ≠ p1) :
    colVal p1 p2 (setItem r k v) = colVal p1 p2 r := by
  unfold colVal
  rw [pyGet_setItem_ne r k p1 v h]

lemma setPair_eq_of_find (kvs : List (String × PyVal)) (k : String) (v : PyVal)
    (h : dictFind kvs k = some v) : setPair kvs k v = kvs := by
  induction kvs with
  | nil => simp [dictFind] at h
  | cons kv t ih =>
    rw [dictFind_cons] at h
    by_cases hk : kv.1 = k
    · have hb : (kv.1 == k) = true := by simp [hk]
      rw [if_pos hb] at h
      have hv : v = kv.2 := by simpa using h.symm
      subst hk
      subst hv
      simp [setPair]
    · have hb : (kv.1 == k) = false := by simp [hk]
      rw [if_neg (by simp [hb])] at h
      simp [setPair, hb, ih h]

lemma setItem_eq_of_pyGet (r : PyVal) (k : String) (v : PyVal)
    (h : pyGet r k = some v) : setItem r k v = r := by
  cases r with
  | dict kvs =>
    simp only [pyGet] at h
    simp [setItem, setPair_eq_of_find kvs k v h]
  | num q => rfl
  | str s => rfl
  | list xs => rfl

/-- In a store whose date strings are already normalised, every record's
stored date string is the serialisation of its own day ordinal. -/
lemma norm_date_value (r : PyVal) (d : Int) (hord : recDateOrd r = .ok d)
    (hnorm : normDateRec r = r) : pyGet r "date" = some (.str (formatDate d)) := by
  have hord' := hord
  unfold recDateOrd at hord'
  obtain ⟨dv, hdv, _⟩ := except_bind_eq_ok _ _ _ hord'
  have hnorm' : setItem r "date" (.str (formatDate d)) = r := by
    have h0 := hnorm
    unfold normDateRec at h0
    rw [hord] at h0
    exact h0
  cases r with
  | dict kvs =>
    have h1 := pyGet_setItem_same kvs "date" (.str (formatDate d))
    rw [hnorm'] at h1
    exact h1
  | num q => simp [getItem] at hdv
  | str s => simp [getItem] at hdv
  | list xs => simp [getItem] at hdv

/-- `addCol` succeeds on rows that all carry the nested value, and
appends exactly that value as the new column of each row. -/
lemma addCol_spec (key p1 p2 : String) (l : List (PyVal × Int))
    (h : ∀ q ∈ l, (colVal p1 p2 q.1).isSome) :
    addCol key p1 p2 l = .ok (l.map (fun q =>
      (setItem q.1 key ((colVal p1 p2 q.1).getD (.dict [])), q.2))) := by
  induction l with
  | nil => rfl
  | cons q t ih =>
    obtain ⟨r, d⟩ := q
    have hq := h (r, d) (by simp)
    rw [Option.isSome_iff_exists] at hq
    obtain ⟨v, hv⟩ := hq
    have hv' := hv
    unfold colVal at hv'
    cases hs : pyGet r p1 with
    | none => rw [hs] at hv'; simp at hv'
    | some s =>
      rw [hs] at hv'
      simp at hv'
      have hg1 : getItem r p1 = .ok s := getItem_of_pyGet_some _ _ _ hs
      have hg2 : getItem s p2 = .ok v := getItem_of_pyGet_some _ _ _ hv'
      have iht := ih (fun x hx => h x (by simp [hx]))
      simp only [addCol, hg1, hg2, iht, bind, Except.bind, List.map_cons]
      simp [hv]

/-- Mapping a row transformation over the date-filtered zip equals
mapping a record transformation over the date-filtered records, when the
two agree pointwise on records paired with their own date ordinals. -/
lemma filter_zip_map_eq (records : List PyVal) (ds : List Int) (c : Int)
    (F : PyVal × Int → PyVal) (g : PyVal → PyVal)
    (hds : datesOf records = .ok ds)
    (hpt : ∀ r d, r ∈ records → recDateOrd r = .ok d → F (r, d) = g r) :
    ((records.zip ds).filter (fun q => decide (c ≤ q.2))).map F
      = (records.filter (dateAtLeast c)).map g := by
  induction records generalizing ds with
  | nil =>
    simp [datesOf] at hds
    subst hds
    simp
  | cons r rs ih =>
    cases hr : recDateOrd r with
    | error e => simp [datesOf, hr, bind, Except.bind] at hds
    | ok d =>
      cases hrest : datesOf rs with
      | error e => simp [datesOf, hr, hrest, bind, Except.bind] at hds
      | ok ds' =>
        have hd : ds = d :: ds' := by
          simp [datesOf, hr, hrest, bind, Except.bind, pure, Except.pure] at hds
          exact hds.symm
        subst hd
        have hda : dateAtLeast c r = decide (c ≤ d) := by
          unfold dateAtLeast
          rw [hr]
        rw [List.zip_cons_cons, List.filter_cons, List.filter_cons, hda]
        have ihh := ih ds' hrest (fun x dx hx hox => hpt x dx (by simp [hx]) hox)
        have hF : F (r, d) = g r := hpt r d (by simp) hr
        by_cases hcd : c ≤ d
        · simp [hcd, hF, ihh]
        · simp [hcd, ihh]

/-- Full evaluation of the window pipeline on a well-formed store: the
two column passes succeed and the final rows are exactly the records
passing the date cutoff, each with the two flat columns appended (the
date re-serialisation is the identity on a normalised store). -/
lemma window_eval (records : List PyVal) (ds : List Int) (c : Int) (cv1 cv2 : PyVal → PyVal)
    (hds : datesOf records = .ok ds)
    (hnorm : ∀ r ∈ records, normDateRec r = r)
    (hms : ∀ r ∈ records, colVal "mood" "score" r = some (cv1 r))
    (hsq : ∀ r ∈ records, colVal "sleep" "quality" r = some (cv2 r)) :
    ∃ c1 c2,
      addCol "mood_score" "mood" "score"
        ((records.zip ds).filter (fun q => decide (c ≤ q.2))) = .ok c1 ∧
      addCol "sleep_quality" "sleep" "quality" c1 = .ok c2 ∧
      c2.map (fun q => setItem q.1 "date" (.str (formatDate q.2)))
        = (records.filter (dateAtLeast c)).map
            (fun r => setItem (setItem r "mood_score" (cv1 r)) "sleep_quality" (cv2 r)) := by
  have hzipmem : ∀ q ∈ (records.zip ds).filter (fun q => decide (c ≤ q.2)),
      q.1 ∈ records := by
    intro q hq
    exact (List.of_mem_zip (List.mem_of_mem_filter hq)).1
  have h1 : ∀ q ∈ (records.zip ds).filter (fun q => decide (c ≤ q.2)),
      (colVal "mood" "score" q.1).isSome := by
    intro q hq
    rw [hms q.1 (hzipmem q hq)]
    rfl
  have hc1 := addCol_spec "mood_score" "mood" "score" _ h1
  have h2 : ∀ q ∈ ((records.zip ds).filter (fun q => decide (c ≤ q.2))).map
      (fun q => (setItem q.1 "mood_score" ((colVal "mood" "score" q.1).getD (.dict [])), q.2)),
      (colVal "sleep" "quality" q.1).isSome := by
    intro q hq
    obtain ⟨q0, hq0, rfl⟩ := List.mem_map.mp hq
    rw [colVal_setItem_ne "sleep" "quality" "mood_score" _ q0.1 (by decide)]
    rw [hsq q0.1 (hzipmem q0 hq0)]
    rfl
  have hc2 := addCol_spec "sleep_quality" "sleep" "quality" _ h2
  refine ⟨_, _, hc1, hc2, ?_⟩
  rw [List.map_map, List.map_map]
  apply filter_zip_map_eq records ds c _ _ hds
  intro r d hr hord
  have e1 : colVal "mood" "score" r = some (cv1 r) := hms r hr
  have e2 : colVal "sleep" "quality" r = some (cv2 r) := hsq r hr
  have e3 := norm_date_value r d hord (hnorm r hr)
  simp only [Function.comp, e1, Option.getD_some]
  have hframe := colVal_setItem_ne "sleep" "quality" "mood_score" (cv1 r) r (by decide)
  rw [hframe, e2]
  simp only [Option.getD_some]
  apply setItem_eq_of_pyGet
  rw [pyGet_setItem_ne (setItem r "mood_score" (cv1 r)) "sleep_quality" "date" (cv2 r)
    (by decide)]
  rw [pyGet_setItem_ne r "mood_score" "date" (cv1 r) (by decide)]
  exact e3

/-- A record with a date inside the week window, with `mood` and `sleep`
sections but without flat `mood_score`/`sleep_quality` keys (no record
the repository builds has them). -/
def winRec : PyVal :=
  .dict [("date", .str "2024-01-05"), ("mood", .dict [("score", .num 6)]),
         ("sleep", .dict [("quality", .num 8)])]

/-- The row the window actually returns for `winRec`: the record plus the
two flat columns appended by `get_data_for_period`. -/
def winRowLit : PyVal :=
  .dict [("date", .str "2024-01-05"), ("mood", .dict [("score", .num 6)]),
         ("sleep", .dict [("quality", .num 8)]),
         ("mood_score", .num 6), ("sleep_quality", .num 8)]

/-- Counterexample to C5 as stated: on the store `[winRec]` (maximum date
ordinal 19727) the week window does not return exactly the records whose
date reaches the cutoff — every returned row additionally carries the
flat `mood_score` and `sleep_quality` columns the stored record does not
have. -/
theorem C5_window_counterexample :
    get_data_for_period "week" [winRec] = .ok [winRowLit] ∧
    pyGet winRowLit "mood_score" = some (.num 6) ∧
    pyGet winRec "mood_score" = Option.none ∧
    [winRec].filter (dateAtLeast (19727 - 6)) = [winRec] ∧
    get_data_for_period "week" [winRec]
      ≠ .ok ([winRec].filter (dateAtLeast (19727 - 6))) := by
  refine ⟨rfl, rfl, rfl, rfl, ?_⟩
  intro h
  have h1 : get_data_for_period "week" [winRec] = .ok [winRowLit] := rfl
  have h2 : ([winRec].filter (dateAtLeast (19727 - 6))) = [winRec] := rfl
  rw [h2] at h
  have h3 : ([winRowLit] : List PyVal) = [winRec] := Except.ok.inj (h1.symm.trans h)
  injection h3 with h4 _
  have h5 := congrArg (fun v => (pyGet v "mood_score").isSome) h4
  exact absurd h5 (by decide)

/-- Claim C5 (amended): on an empty store `get_data_for_period` returns
an empty result for any period; on a store of records with normalised
dates and with `mood.score` and `sleep.quality` present, it returns
exactly the records whose date is at least the maximum date minus 6 days
for `"week"` and minus 29 days for `"month"` — but each returned row
additionally carries the flat `mood_score` and `sleep_quality` columns
copied from the nested fields. -/
theorem C5_window_selects_by_cutoff (period : String) (records : List PyVal)
    (cv1 cv2 : PyVal → PyVal) :
    (records = [] → get_data_for_period period records = .ok []) ∧
    (∀ ds endD, datesOf records = .ok ds → ds.max? = some endD →
      (∀ r ∈ records, normDateRec r = r) →
      (∀ r ∈ records, colVal "mood" "score" r = some (cv1 r)) →
      (∀ r ∈ records, colVal "sleep" "quality" r = some (cv2 r)) →
      get_data_for_period "week" records
          = .ok ((records.filter (dateAtLeast (endD - 6))).map
              (fun r => setItem (setItem r "mood_score" (cv1 r)) "sleep_quality" (cv2 r))) ∧
      get_data_for_period "month" records
          = .ok ((records.filter (dateAtLeast (endD - 29))).map
              (fun r => setItem (setItem r "mood_score" (cv1 r)) "sleep_quality" (cv2 r)))) := by
  constructor
  · intro h
    subst h
    rfl
  · intro ds endD hds hmax hnorm hms hsq
    cases records with
    | nil =>
      simp [datesOf] at hds
      subst hds
      simp at hmax
    | cons r rs =>
      have hne : ((r :: rs).isEmpty) = false := rfl
      obtain ⟨c1, c2, hc1, hc2, heq⟩ :=
        window_eval (r :: rs) ds (endD - 6) cv1 cv2 hds hnorm hms hsq
      obtain ⟨c1', c2', hc1', hc2', heq'⟩ :=
        window_eval (r :: rs) ds (endD - 29) cv1 cv2 hds hnorm hms hsq
      constructor
      · have hcond : (if (("week" == "week") = true) then (6 : ℤ) else 29) = 6 := by decide
        simp only [get_data_for_period, hne, Bool.false_eq_true, if_false, hds, hmax,
          bind, Except.bind, hcond, hc1, hc2]
        rw [heq]
      · have hcond : (if (("month" == "week") = true) then (6 : ℤ) else 29) = 29 := by decide
        simp only [get_data_for_period, hne, Bool.false_eq_true, if_false, hds, hmax,
          bind, Except.bind, hcond, hc1', hc2']
        rw [heq']

/-- First record of the C5 witness store. -/
def wr1 : PyVal :=
  .dict [("date", .str "2024-01-01"), ("mood", .dict [("score", .num 5)]),
         ("sleep", .dict [("quality", .num 6)])]

/-- Second record of the C5 witness store. -/
def wr2 : PyVal :=
  .dict [("date", .str "2024-01-08"), ("mood", .dict [("score", .num 7)]),
         ("sleep", .dict [("quality", .num 8)])]

/-- Witness for the amended C5 at a concrete two-record store (dates
2024-01-01 and 2024-01-08): the week window keeps only the record within
6 days of the maximum date, the month window keeps both, and every
returned row carries the two appended flat columns. -/
theorem C5_window_selects_by_cutoff_witness :
    get_data_for_period "week" [wr1, wr2]
      = .ok [setItem (setItem wr2 "mood_score" (.num 7)) "sleep_quality" (.num 8)] ∧
    get_data_for_period "month" [wr1, wr2]
      = .ok [setItem (setItem wr1 "mood_score" (.num 5)) "sleep_quality" (.num 6),
             setItem (setItem wr2 "mood_score" (.num 7)) "sleep_quality" (.num 8)] := by
  have h := (C5_window_selects_by_cutoff "week" [wr1, wr2]
      (fun r => (colVal "mood" "score" r).getD (.dict []))
      (fun r => (colVal "sleep" "quality" r).getD (.dict []))).2
    [19723, 19730] 19730 rfl rfl
    (by
      intro r hr
      simp at hr
      rcases hr with h1 | h1 <;> (subst h1; rfl))
    (by
      intro r hr
      simp at hr
      rcases hr with h1 | h1 <;> (subst h1; rfl))
    (by
      intro r hr
      simp at hr
      rcases hr with h1 | h1 <;> (subst h1; rfl))
  exact ⟨h.1.trans (by rfl), h.2.trans (by rfl)⟩

/-! ## Claim C8: `GeminiAPI.analyze_daily_input` fallback
(`src/utils/gemini_api.py`).  The transport call is abstracted as the
reply `text`; `json.loads` is the parameter `parse` (a parse failure is
`Option.none`, mirroring `json.JSONDecodeError`). -/

/-- Python `text.split(sep)[1]` (used only when `sep` occurs in `text`). -/
def pySplitSecond (t sep : String) : String :=
  (t.splitOn sep).getD 1 ""

/-- Python `text.rsplit(sep, 1)[0]`: everything before the last
occurrence of `sep` (used only when `sep` occurs in `text`). -/
def pyRSplitFirst (t sep : String) : String :=
  String.intercalate sep ((t.splitOn sep).dropLast)

/-- The reply-normalisation steps of `analyze_daily_input`: strip, drop a
leading code-fence marker, drop a trailing one, strip again. -/
def stripReply (text : String) : String :=
  let t0 := pyStrip text
  let t1 := if t0.startsWith "```json" then pySplitSecond t0 "```json" else t0
  let t2 := if t1.endsWith "```" then pyRSplitFirst t1 "```" else t1
  pyStrip t2

/-- `GeminiAPI._get_default_module_response`: the static hardcoded
fallback object per module type, transcribed verbatim. -/
def get_default_module_response (module_type : String) : PyVal :=
  if module_type == "mood" then
    .dict [("today_insights", .list
              [.str "Continue monitoring your mood patterns",
               .str "Track any significant mood changes"]),
           ("recommendations", .list
              [.str "Maintain regular mood tracking",
               .str "Practice stress management techniques",
               .str "Seek support when needed"])]
  else if module_type == "sleep" then
    .dict [("today_insights", .list
              [.str "Keep monitoring your sleep patterns",
               .str "Note any sleep disruptions"]),
           ("recommendations", .list
              [.str "Maintain consistent sleep schedule",
               .str "Create a relaxing bedtime routine",
               .str "Monitor sleep environment"])]
  else if module_type == "symptoms" then
    .dict [("today_insights", .list
              [.str "Continue tracking symptom intensity",
               .str "Monitor symptom patterns"]),
           ("recommendations", .list
              [.str "Record any new symptoms",
               .str "Track symptom triggers",
               .str "Discuss persistent symptoms with healthcare provider"])]
  else if module_type == "diet" then
    .dict [("today_insights", .list
              [.str "Monitor your eating patterns",
               .str "Track nutritional intake"]),
           ("recommendations", .list
              [.str "Maintain balanced nutrition",
               .str "Stay hydrated throughout the day",
               .str "Consider regular meal timing"])]
  else
    .dict [("today_insights", .list
              [.str "Continue monitoring your health metrics",
               .str "Track any significant changes"]),
           ("recommendations", .list
              [.str "Maintain regular health tracking",
               .str "Follow your usual health routines",
               .str "Consult healthcare provider if needed"])]

/-- `analysis['k'] = [] unless isinstance(analysis.get('k'), list)`. -/
def ensureListField (v : PyVal) (k : String) : PyVal :=
  match pyGet v k with
  | some (.list _) => v
  | _ => setItem v k (.list [])

/-- The reply-handling tail of `GeminiAPI.analyze_daily_input`: strip
fence markers, parse; on success force `today_insights` and
`recommendations` to lists; on a parse failure (or a non-dict reply,
whose `.get` raises and is caught by the outer handler) return the
static per-module fallback. -/
def analyze_daily_input_reply (parse : String → Option PyVal) (module_type text : String) :
    PyVal :=
  match parse (stripReply text) with
  | some v =>
    match v with
    | .dict kvs => ensureListField (ensureListField (.dict kvs) "today_insights") "recommendations"
    | _ => get_default_module_response module_type
  | Option.none => get_default_module_response module_type

/-- Claim C8: for each module type among mood, sleep, symptoms and diet,
when the model reply fails structured-text parsing after fence
stripping, the result is exactly the static hardcoded fallback object of
that module type, and that fallback's recommendations list is
non-empty. -/
theorem C8_parse_failure_yields_fallback (parse : String → Option PyVal)
    (module_type text : String)
    (hfail : parse (stripReply text) = Option.none)
    (hmt : module_type = "mood" ∨ module_type = "sleep" ∨
           module_type = "symptoms" ∨ module_type = "diet") :
    analyze_daily_input_reply parse module_type text
        = get_default_module_response module_type ∧
    ∃ l, pyGet (get_default_module_response module_type) "recommendations"
        = some (.list l) ∧ l ≠ [] := by
  constructor
  · unfold analyze_daily_input_reply
    rw [hfail]
  · rcases hmt with h | h | h | h <;> subst h <;> exact ⟨_, rfl, by simp⟩

/-- Witness for C8 at a concrete unparseable reply for the mood module:
the fallback is returned and its recommendations are non-empty. -/
theorem C8_parse_failure_yields_fallback_witness :
    analyze_daily_input_reply (fun _ => Option.none) "mood" "no structured data here"
        = get_default_module_response "mood" ∧
    ∃ l, pyGet (get_default_module_response "mood") "recommendations"
        = some (.list l) ∧ l ≠ [] :=
  C8_parse_failure_yields_fallback (fun _ => Option.none) "mood" "no structured data here"
    rfl (Or.inl rfl)

/-! ## Claim C3: `SyncManager.sync_health_record` -/

/-- The five validations of `sync_health_record`, combined with `all(...)`
(each section is looked up on the processed record; exceptions abort the
whole list, exactly as in the Python list display). -/
def validateAllSections (p : PyVal) : Except String Bool := do
  let v1 ← validate_mood_data (← getItem p "mood")
  let v2 ← validate_sleep_data (← getItem p "sleep")
  let v3 ← validate_diet_data (← getItem p "diet")
  let v4 ← validate_symptoms_data (← getItem p "symptoms")
  let v5 ← validate_exercise_data (← getItem p "exercise")
  .ok (v1 && v2 && v3 && v4 && v5)

/-- The four persistent stores touched by a sync: the local record file,
the local feedback file, and their cloud mirrors. -/
structure SyncState where
  localRecords : List PyVal
  localFeedback : List PyVal
  cloudRecords : List PyVal
  cloudFeedback : List PyVal

/-- `SyncManager.sync_health_record`: preprocess, validate all five
sections, and only then persist — append to the local records
(`DataManager.save_daily_record`, which also generates and appends a
feedback entry, abstracted as `mkFeedback`), mirror the record to the
cloud, and sync the latest local feedback to the cloud.  Any exception
or failed validation yields `False` with nothing written. -/
def sync_health_record (nd : String → String) (rnd : ℚ → ℚ)
    (mkFeedback : PyVal → List PyVal → PyVal) (s : SyncState) (record : PyVal) :
    Bool × SyncState :=
  match (do
      let processed ← process_health_record nd rnd record
      let allOk ← validateAllSections processed
      Except.ok (processed, allOk) : Except String (PyVal × Bool)) with
  | .error _ => (false, s)
  | .ok (processed, allOk) =>
    if allOk then
      let s1 : SyncState := { s with localRecords := s.localRecords ++ [processed] }
      let fb := mkFeedback processed s1.localRecords
      let s2 : SyncState := { s1 with localFeedback := s1.localFeedback ++ [fb] }
      let s3 : SyncState := { s2 with cloudRecords := s2.cloudRecords ++ [processed] }
      let latest := match s3.localFeedback.getLast? with
        | some f => f
        | Option.none => PyVal.dict []
      let s4 : SyncState := { s3 with cloudFeedback := s3.cloudFeedback ++ [latest] }
      (true, s4)
    else (false, s)

lemma validateAllSections_ok_true (p : PyVal) (h : validateAllSections p = .ok true) :
    (getItem p "mood" >>= validate_mood_data) = .ok true ∧
    (getItem p "sleep" >>= validate_sleep_data) = .ok true ∧
    (getItem p "diet" >>= validate_diet_data) = .ok true ∧
    (getItem p "symptoms" >>= validate_symptoms_data) = .ok true ∧
    (getItem p "exercise" >>= validate_exercise_data) = .ok true := by
  unfold validateAllSections at h
  obtain ⟨x1, hx1, h⟩ := except_bind_eq_ok _ _ _ h
  obtain ⟨v1, hv1, h⟩ := except_bind_eq_ok _ _ _ h
  obtain ⟨x2, hx2, h⟩ := except_bind_eq_ok _ _ _ h
  obtain ⟨v2, hv2, h⟩ := except_bind_eq_ok _ _ _ h
  obtain ⟨x3, hx3, h⟩ := except_bind_eq_ok _ _ _ h
  obtain ⟨v3, hv3, h⟩ := except_bind_eq_ok _ _ _ h
  obtain ⟨x4, hx4, h⟩ := except_bind_eq_ok _ _ _ h
  obtain ⟨v4, hv4, h⟩ := except_bind_eq_ok _ _ _ h
  obtain ⟨x5, hx5, h⟩ := except_bind_eq_ok _ _ _ h
  obtain ⟨v5, hv5, h⟩ := except_bind_eq_ok _ _ _ h
  have hand : (v1 && v2 && v3 && v4 && v5) = true := by simpa using h
  simp only [Bool.and_eq_true] at hand
  refine ⟨?_, ?_, ?_, ?_, ?_⟩
  · rw [hx1]; simp [bind, Except.bind, hv1, hand.1.1.1.1]
  · rw [hx2]; simp [bind, Except.bind, hv2, hand.1.1.1.2]
  · rw [hx3]; simp [bind, Except.bind, hv3, hand.1.1.2]
  · rw [hx4]; simp [bind, Except.bind, hv4, hand.1.2]
  · rw [hx5]; simp [bind, Except.bind, hv5, hand.2]

/-- Claim C3: whenever one of the five validators returns `False` on the
preprocessed record, `sync_health_record` returns `False` and performs
no write: the local record store, the local feedback store and the cloud
mirrors are all unchanged. -/
theorem C3_validation_failure_writes_nothing (nd : String → String) (rnd : ℚ → ℚ)
    (mkFeedback : PyVal → List PyVal → PyVal) (s : SyncState) (record p : PyVal)
    (hp : process_health_record nd rnd record = .ok p)
    (hfail : (getItem p "mood" >>= validate_mood_data) = .ok false ∨
             (getItem p "sleep" >>= validate_sleep_data) = .ok false ∨
             (getItem p "diet" >>= validate_diet_data) = .ok false ∨
             (getItem p "symptoms" >>= validate_symptoms_data) = .ok false ∨
             (getItem p "exercise" >>= validate_exercise_data) = .ok false) :
    sync_health_record nd rnd mkFeedback s record = (false, s) := by
  cases hval : validateAllSections p with
  | error e =>
    simp [sync_health_record, hp, hval, bind, Except.bind]
  | ok b =>
    have hb : b = false := by
      cases b with
      | false => rfl
      | true =>
        have hall := validateAllSections_ok_true p hval
        rcases hfail with h | h | h | h | h
        · exact absurd (h.symm.trans hall.1) (by simp)
        · exact absurd (h.symm.trans hall.2.1) (by simp)
        · exact absurd (h.symm.trans hall.2.2.1) (by simp)
        · exact absurd (h.symm.trans hall.2.2.2.1) (by simp)
        · exact absurd (h.symm.trans hall.2.2.2.2) (by simp)
    subst hb
    simp [sync_health_record, hp, hval, bind, Except.bind]

/-- A fully shaped record whose mood score (11) is out of range. -/
def badMoodRecord : PyVal :=
  .dict [("date", .str "2024-01-02"),
         ("mood", .dict [("score", .num 11), ("triggers", .list []), ("notes", .str "")]),
         ("sleep", .dict [("hours", .num 8), ("quality", .num 7), ("issues", .list [])]),
         ("diet", .dict [("meals", .list []), ("water_intake", .num 6),
                         ("supplements", .list [])]),
         ("symptoms", .dict [("physical", .dict []), ("emotional", .dict []),
                             ("intensity", .str "moderate")]),
         ("exercise", .dict [("type", .str "Walking"), ("duration", .num 30),
                             ("intensity", .str "Low")])]

/-- Witness for C3 at a concrete record whose mood score is out of range:
the sync fails and all four stores are untouched. -/
theorem C3_validation_failure_writes_nothing_witness :
    sync_health_record id id (fun _ _ => PyVal.dict []) ⟨[], [], [], []⟩ badMoodRecord
      = (false, ⟨[], [], [], []⟩) :=
  C3_validation_failure_writes_nothing id id (fun _ _ => PyVal.dict []) ⟨[], [], [], []⟩
    badMoodRecord _ rfl (Or.inl rfl)

/-! ## Claim C9: round-trip through preprocess, validate, store, window -/

lemma normalize_dates_shape (nd : String → String) (kvs : List (String × PyVal)) (d0 : String)
    (hdate : dictFind kvs "date" = some (.str d0)) :
    normalize_dates nd (.dict kvs) = .ok (.dict (setPair kvs "date" (.str (nd d0)))) := by
  simp [normalize_dates, pyContains, hdate, getItem, getStr, setItem, bind, Except.bind,
    pure, Except.pure]

lemma standardize_scores_shape (rnd : ℚ → ℚ) (kvs mkv skv : List (String × PyVal))
    (sc ql : ℚ)
    (hmood : dictFind kvs "mood" = some (.dict mkv))
    (hscore : dictFind mkv "score" = some (.num sc))
    (hsleep : dictFind kvs "sleep" = some (.dict skv))
    (hqual : dictFind skv "quality" = some (.num ql)) :
    standardize_scores rnd (.dict kvs)
      = .ok (.dict (setPair (setPair kvs "mood" (.dict (setPair mkv "score" (.num (rnd sc)))))
          "sleep" (.dict (setPair skv "quality" (.num (rnd ql)))))) := by
  simp [standardize_scores, pyContains, getItem, getNum, setItem, hmood, hscore,
    bind, Except.bind, pure, Except.pure, dictFind_setPair, hsleep, hqual]

lemma clean_text_fields_shape_some (kvs mkv dkv : List (String × PyVal)) (mn dn : String)
    (hmood : dictFind kvs "mood" = some (.dict mkv))
    (hmnotes : dictFind mkv "notes" = some (.str mn))
    (hdiet : dictFind kvs "diet" = some (.dict dkv))
    (hdnotes : dictFind dkv "notes" = some (.str dn)) :
    clean_text_fields (.dict kvs)
      = .ok (.dict (setPair (setPair kvs "mood" (.dict (setPair mkv "notes" (.str (pyStrip mn)))))
          "diet" (.dict (setPair dkv "notes" (.str (pyStrip dn)))))) := by
  simp [clean_text_fields, pyContains, getItem, getStr, setItem, hmood, hmnotes,
    bind, Except.bind, pure, Except.pure, dictFind_setPair, hdiet, hdnotes]

lemma clean_text_fields_shape_none (kvs mkv dkv : List (String × PyVal)) (mn : String)
    (hmood : dictFind kvs "mood" = some (.dict mkv))
    (hmnotes : dictFind mkv "notes" = some (.str mn))
    (hdiet : dictFind kvs "diet" = some (.dict dkv))
    (hdnotes : dictFind dkv "notes" = Option.none) :
    clean_text_fields (.dict kvs)
      = .ok (.dict (setPair kvs "mood" (.dict (setPair mkv "notes" (.str (pyStrip mn)))))) := by
  simp [clean_text_fields, pyContains, getItem, getStr, setItem, hmood, hmnotes,
    bind, Except.bind, pure, Except.pure, dictFind_setPair, hdiet, hdnotes]

lemma mem_add_health_record (rs : List PyVal) (p : PyVal) :
    p ∈ add_health_record rs p := by
  rw [add_health_record_eq_lastN, List.drop_append_eq_append_drop]
  have h0 : ((rs ++ [p]).length - 30) - rs.length = 0 := by
    have h1 : (rs ++ [p]).length = rs.length + 1 := by simp
    omega
  rw [h0]
  simp

lemma zip_dates_mem (records : List PyVal) (ds : List Int) (r : PyVal)
    (hds : datesOf records = .ok ds) (hr : r ∈ records) :
    ∃ d, (r, d) ∈ records.zip ds ∧ recDateOrd r = .ok d := by
  induction records generalizing ds with
  | nil => cases hr
  | cons a rs ih =>
    cases ha : recDateOrd a with
    | error e => simp [datesOf, ha, bind, Except.bind] at hds
    | ok d0 =>
      cases hrest : datesOf rs with
      | error e => simp [datesOf, ha, hrest, bind, Except.bind] at hds
      | ok ds' =>
        have hd : ds = d0 :: ds' := by
          simp [datesOf, ha, hrest, bind, Except.bind, pure, Except.pure] at hds
          exact hds.symm
        subst hd
        rcases List.mem_cons.mp hr with h | h
        · subst h
          exact ⟨d0, by simp, ha⟩
        · obtain ⟨d, hzip, hord⟩ := ih ds' hrest h
          exact ⟨d, by simp [hzip], hord⟩

lemma window_week_mem (records : List PyVal) (ds : List Int) (mx : Int) (r : PyVal)
    (dr : Int) (v1 v2 : PyVal)
    (hds : datesOf records = .ok ds) (hmax : ds.max? = some mx)
    (hr : r ∈ records) (hord : recDateOrd r = .ok dr) (hcut : mx - 6 ≤ dr)
    (hv1 : colVal "mood" "score" r = some v1)
    (hv2 : colVal "sleep" "quality" r = some v2)
    (hcols : ∀ x ∈ records, (colVal "mood" "score" x).isSome ∧
             (colVal "sleep" "quality" x).isSome) :
    ∃ w, get_data_for_period "week" records = .ok w ∧
      setItem (setItem (setItem r "mood_score" v1) "sleep_quality" v2) "date"
        (.str (formatDate dr)) ∈ w := by
  have hne : records.isEmpty = false := by
    cases records with
    | nil => cases hr
    | cons a t => rfl
  have hzipmem : ∀ q ∈ (records.zip ds).filter (fun q => decide (mx - 6 ≤ q.2)),
      q.1 ∈ records := by
    intro q hq
    exact (List.of_mem_zip (List.mem_of_mem_filter hq)).1
  have h1 : ∀ q ∈ (records.zip ds).filter (fun q => decide (mx - 6 ≤ q.2)),
      (colVal "mood" "score" q.1).isSome := by
    intro q hq
    exact (hcols q.1 (hzipmem q hq)).1
  have hc1 := addCol_spec "mood_score" "mood" "score" _ h1
  have h2 : ∀ q ∈ ((records.zip ds).filter (fun q => decide (mx - 6 ≤ q.2))).map
      (fun q => (setItem q.1 "mood_score" ((colVal "mood" "score" q.1).getD (.dict [])), q.2)),
      (colVal "sleep" "quality" q.1).isSome := by
    intro q hq
    obtain ⟨q0, hq0, rfl⟩ := List.mem_map.mp hq
    rw [colVal_setItem_ne "sleep" "quality" "mood_score" _ q0.1 (by decide)]
    exact (hcols q0.1 (hzipmem q0 hq0)).2
  have hc2 := addCol_spec "sleep_quality" "sleep" "quality" _ h2
  refine ⟨(((((records.zip ds).filter (fun q => decide (mx - 6 ≤ q.2))).map
      (fun q => (setItem q.1 "mood_score" ((colVal "mood" "score" q.1).getD (.dict [])),
        q.2))).map
      (fun q => (setItem q.1 "sleep_quality" ((colVal "sleep" "quality" q.1).getD (.dict [])),
        q.2))).map
      (fun q => setItem q.1 "date" (.str (formatDate q.2)))), ?_, ?_⟩
  · have hcond : (if (("week" == "week") = true) then (6 : ℤ) else 29) = 6 := by decide
    simp only [get_data_for_period, hne, Bool.false_eq_true, if_false, hds, hmax,
      bind, Except.bind, hcond, hc1, hc2]
  · obtain ⟨d, hzip, hord'⟩ := zip_dates_mem records ds r hds hr
    have hdd : d = dr := by
      rw [hord] at hord'
      simpa using hord'.symm
    subst hdd
    have hfil : (r, d) ∈ (records.zip ds).filter (fun q => decide (mx - 6 ≤ q.2)) :=
      List.mem_filter.mpr ⟨hzip, by simpa using hcut⟩
    refine List.mem_map.mpr
      ⟨(setItem (setItem r "mood_score" v1) "sleep_quality" v2, d), ?_, rfl⟩
    refine List.mem_map.mpr ⟨(setItem r "mood_score" v1, d), ?_, ?_⟩
    · refine List.mem_map.mpr ⟨(r, d), hfil, ?_⟩
      simp [hv1]
    · have hframe := colVal_setItem_ne "sleep" "quality" "mood_score" v1 r (by decide)
      simp [hframe, hv2]

/-- Claim C9 (amended): a record written through
preprocess → validate → store and read back via the week window is
returned with every top-level field equal to the input except the
normalised date string and two flat `mood_score` / `sleep_quality`
columns the window adds to every returned row; every mood field except
the rounded `score` and the stripped `notes` equals the input, every
sleep field except the rounded `quality` equals the input, and every
diet field except `notes` equals the input — `mood.notes` (and
`diet.notes` when present) come back whitespace-stripped, not
byte-equal. -/
theorem C9_roundtrip_preserves_fields (nd : String → String) (rnd : ℚ → ℚ)
    (kvs mkv skv dkv : List (String × PyVal)) (d0 mn : String) (sc ql : ℚ)
    (rs : List PyVal) (ds : List Int) (mx dp : Int) (p : PyVal)
    (hdate : dictFind kvs "date" = some (.str d0))
    (hmood : dictFind kvs "mood" = some (.dict mkv))
    (hscore : dictFind mkv "score" = some (.num sc))
    (hmnotes : dictFind mkv "notes" = some (.str mn))
    (hsleep : dictFind kvs "sleep" = some (.dict skv))
    (hqual : dictFind skv "quality" = some (.num ql))
    (hdiet : dictFind kvs "diet" = some (.dict dkv))
    (hdnotes : (∃ dn, dictFind dkv "notes" = some (.str dn)) ∨
               dictFind dkv "notes" = Option.none)
    (hrs : ∀ x ∈ rs, (colVal "mood" "score" x).isSome ∧
           (colVal "sleep" "quality" x).isSome)
    (hproc : process_health_record nd rnd (.dict kvs) = .ok p)
    (hvalid : validateAllSections p = .ok true)
    (hds : datesOf (add_health_record rs p) = .ok ds)
    (hmax : ds.max? = some mx)
    (hord : recDateOrd p = .ok dp)
    (hcut : mx - 6 ≤ dp) :
    ∃ w, get_data_for_period "week" (add_health_record rs p) = .ok w ∧
      setItem (setItem (setItem p "mood_score" (.num (rnd sc))) "sleep_quality"
          (.num (rnd ql))) "date" (.str (formatDate dp)) ∈ w ∧
      pyGet (setItem (setItem (setItem p "mood_score" (.num (rnd sc))) "sleep_quality"
          (.num (rnd ql))) "date" (.str (formatDate dp))) "mood_score"
        = some (.num (rnd sc)) ∧
      pyGet (setItem (setItem (setItem p "mood_score" (.num (rnd sc))) "sleep_quality"
          (.num (rnd ql))) "date" (.str (formatDate dp))) "sleep_quality"
        = some (.num (rnd ql)) ∧
      (∀ k, k ≠ "date" → k ≠ "mood" → k ≠ "sleep" → k ≠ "diet" →
        k ≠ "mood_score" → k ≠ "sleep_quality" →
        pyGet (setItem (setItem (setItem p "mood_score" (.num (rnd sc))) "sleep_quality"
          (.num (rnd ql))) "date" (.str (formatDate dp))) k = dictFind kvs k) ∧
      (∃ mkvOut, pyGet (setItem (setItem (setItem p "mood_score" (.num (rnd sc)))
            "sleep_quality" (.num (rnd ql))) "date" (.str (formatDate dp))) "mood"
            = some (.dict mkvOut) ∧
        (∀ k, k ≠ "score" → k ≠ "notes" → dictFind mkvOut k = dictFind mkv k) ∧
        dictFind mkvOut "score" = some (.num (rnd sc)) ∧
        dictFind mkvOut "notes" = some (.str (pyStrip mn))) ∧
      (∃ skvOut, pyGet (setItem (setItem (setItem p "mood_score" (.num (rnd sc)))
            "sleep_quality" (.num (rnd ql))) "date" (.str (formatDate dp))) "sleep"
            = some (.dict skvOut) ∧
        (∀ k, k ≠ "quality" → dictFind skvOut k = dictFind skv k) ∧
        dictFind skvOut "quality" = some (.num (rnd ql))) ∧
      (∃ dkvOut, pyGet (setItem (setItem (setItem p "mood_score" (.num (rnd sc)))
            "sleep_quality" (.num (rnd ql))) "date" (.str (formatDate dp))) "diet"
            = some (.dict dkvOut) ∧
        (∀ k, k ≠ "notes" → dictFind dkvOut k = dictFind dkv k) ∧
        dictFind dkvOut "notes" = (dictFind dkv "notes").map
          (fun v => match v with | .str s => .str (pyStrip s) | x => x)) := by
  -- shape of the record after each preprocessing stage
  have hmood1 : dictFind (setPair kvs "date" (.str (nd d0))) "mood" = some (.dict mkv) := by
    rw [dictFind_setPair]
    simp [hmood]
  have hsleep1 : dictFind (setPair kvs "date" (.str (nd d0))) "sleep" = some (.dict skv) := by
    rw [dictFind_setPair]
    simp [hsleep]
  have hdiet1 : dictFind (setPair kvs "date" (.str (nd d0))) "diet" = some (.dict dkv) := by
    rw [dictFind_setPair]
    simp [hdiet]
  have hn := normalize_dates_shape nd kvs d0 hdate
  have hs := standardize_scores_shape rnd (setPair kvs "date" (.str (nd d0))) mkv skv sc ql
    hmood1 hscore hsleep1 hqual
  have hmood3 : dictFind (setPair (setPair (setPair kvs "date" (.str (nd d0))) "mood"
        (.dict (setPair mkv "score" (.num (rnd sc))))) "sleep"
        (.dict (setPair skv "quality" (.num (rnd ql))))) "mood"
      = some (.dict (setPair mkv "score" (.num (rnd sc)))) := by
    simp [dictFind_setPair]
  have hmnotes1 : dictFind (setPair mkv "score" (.num (rnd sc))) "notes" = some (.str mn) := by
    simp [dictFind_setPair, hmnotes]
  have hdiet3 : dictFind (setPair (setPair (setPair kvs "date" (.str (nd d0))) "mood"
        (.dict (setPair mkv "score" (.num (rnd sc))))) "sleep"
        (.dict (setPair skv "quality" (.num (rnd ql))))) "diet"
      = some (.dict dkv) := by
    simp [dictFind_setPair, hdiet]
  rcases hdnotes with ⟨dn, hdn⟩ | hdn
  · -- diet.notes present: it is stripped as well
    have hc := clean_text_fields_shape_some _ _ dkv mn dn hmood3 hmnotes1 hdiet3 hdn
    have hproc' : process_health_record nd rnd (.dict kvs)
        = .ok (.dict (setPair (setPair (setPair (setPair (setPair kvs "date"
            (.str (nd d0))) "mood" (.dict (setPair mkv "score" (.num (rnd sc)))))
            "sleep" (.dict (setPair skv "quality" (.num (rnd ql)))))
            "mood" (.dict (setPair (setPair mkv "score" (.num (rnd sc))) "notes"
              (.str (pyStrip mn)))))
            "diet" (.dict (setPair dkv "notes" (.str (pyStrip dn)))))) := by
      simp [process_health_record, hn, hs, hc, bind, Except.bind]
    have hpp : p = .dict (setPair (setPair (setPair (setPair (setPair kvs "date"
            (.str (nd d0))) "mood" (.dict (setPair mkv "score" (.num (rnd sc)))))
            "sleep" (.dict (setPair skv "quality" (.num (rnd ql)))))
            "mood" (.dict (setPair (setPair mkv "score" (.num (rnd sc))) "notes"
              (.str (pyStrip mn)))))
            "diet" (.dict (setPair dkv "notes" (.str (pyStrip dn))))) := by
      rw [hproc'] at hproc
      simpa using hproc.symm
    have hv1 : colVal "mood" "score" p = some (.num (rnd sc)) := by
      rw [hpp]
      simp [colVal, pyGet, setItem, dictFind_setPair]
    have hv2 : colVal "sleep" "quality" p = some (.num (rnd ql)) := by
      rw [hpp]
      simp [colVal, pyGet, setItem, dictFind_setPair]
    have hcols : ∀ x ∈ add_health_record rs p, (colVal "mood" "score" x).isSome ∧
        (colVal "sleep" "quality" x).isSome := by
      intro x hx
      have hx2 : x ∈ rs ++ [p] := by
        rw [add_health_record_eq_lastN] at hx
        exact List.mem_of_mem_drop hx
      rcases List.mem_append.mp hx2 with hxa | hxa
      · exact hrs x hxa
      · have hxp : x = p := by simpa using hxa
        subst hxp
        exact ⟨by rw [hv1]; rfl, by rw [hv2]; rfl⟩
    obtain ⟨w, hw, hmem⟩ := window_week_mem (add_health_record rs p) ds mx p dp
      (.num (rnd sc)) (.num (rnd ql)) hds hmax (mem_add_health_record rs p) hord hcut
      hv1 hv2 hcols
    refine ⟨w, hw, hmem, ?_, ?_, ?_, ?_, ?_, ?_⟩
    · subst hpp
      simp [pyGet, setItem, dictFind_setPair]
    · subst hpp
      simp [pyGet, setItem, dictFind_setPair]
    · intro k hk1 hk2 hk3 hk4 hk5 hk6
      subst hpp
      simp [pyGet, setItem, dictFind_setPair, Ne.symm hk1, Ne.symm hk2, Ne.symm hk3,
        Ne.symm hk4, Ne.symm hk5, Ne.symm hk6]
    · refine ⟨setPair (setPair mkv "score" (.num (rnd sc))) "notes" (.str (pyStrip mn)),
        ?_, ?_, ?_, ?_⟩
      · subst hpp
        simp [pyGet, setItem, dictFind_setPair]
      · intro k hk1 hk2
        simp [dictFind_setPair, Ne.symm hk1, Ne.symm hk2]
      · simp [dictFind_setPair]
      · simp [dictFind_setPair]
    · refine ⟨setPair skv "quality" (.num (rnd ql)), ?_, ?_, ?_⟩
      · subst hpp
        simp [pyGet, setItem, dictFind_setPair]
      · intro k hk1
        simp [dictFind_setPair, Ne.symm hk1]
      · simp [dictFind_setPair]
    · refine ⟨setPair dkv "notes" (.str (pyStrip dn)), ?_, ?_, ?_⟩
      · subst hpp
        simp [pyGet, setItem, dictFind_setPair]
      · intro k hk1
        simp [dictFind_setPair, Ne.symm hk1]
      · simp [dictFind_setPair, hdn]
  · -- diet.notes absent: the diet section is untouched
    have hc := clean_text_fields_shape_none _ _ dkv mn hmood3 hmnotes1 hdiet3 hdn
    have hproc' : process_health_record nd rnd (.dict kvs)
        = .ok (.dict (setPair (setPair (setPair (setPair kvs "date"
            (.str (nd d0))) "mood" (.dict (setPair mkv "score" (.num (rnd sc)))))
            "sleep" (.dict (setPair skv "quality" (.num (rnd ql)))))
            "mood" (.dict (setPair (setPair mkv "score" (.num (rnd sc))) "notes"
              (.str (pyStrip mn)))))) := by
      simp [process_health_record, hn, hs, hc, bind, Except.bind]
    have hpp : p = .dict (setPair (setPair (setPair (setPair kvs "date"
            (.str (nd d0))) "mood" (.dict (setPair mkv "score" (.num (rnd sc)))))
            "sleep" (.dict (setPair skv "quality" (.num (rnd ql)))))
            "mood" (.dict (setPair (setPair mkv "score" (.num (rnd sc))) "notes"
              (.str (pyStrip mn))))) := by
      rw [hproc'] at hproc
      simpa using hproc.symm
    have hv1 : colVal "mood" "score" p = some (.num (rnd sc)) := by
      rw [hpp]
      simp [colVal, pyGet, setItem, dictFind_setPair]
    have hv2 : colVal "sleep" "quality" p = some (.num (rnd ql)) := by
      rw [hpp]
      simp [colVal, pyGet, setItem, dictFind_setPair]
    have hcols : ∀ x ∈ add_health_record rs p, (colVal "mood" "score" x).isSome ∧
        (colVal "sleep" "quality" x).isSome := by
      intro x hx
      have hx2 : x ∈ rs ++ [p] := by
        rw [add_health_record_eq_lastN] at hx
        exact List.mem_of_mem_drop hx
      rcases List.mem_append.mp hx2 with hxa | hxa
      · exact hrs x hxa
      · have hxp : x = p := by simpa using hxa
        subst hxp
        exact ⟨by rw [hv1]; rfl, by rw [hv2]; rfl⟩
    obtain ⟨w, hw, hmem⟩ := window_week_mem (add_health_record rs p) ds mx p dp
      (.num (rnd sc)) (.num (rnd ql)) hds hmax (mem_add_health_record rs p) hord hcut
      hv1 hv2 hcols
    refine ⟨w, hw, hmem, ?_, ?_, ?_, ?_, ?_, ?_⟩
    · subst hpp
      simp [pyGet, setItem, dictFind_setPair]
    · subst hpp
      simp [pyGet, setItem, dictFind_setPair]
    · intro k hk1 hk2 hk3 hk4 hk5 hk6
      subst hpp
      simp [pyGet, setItem, dictFind_setPair, Ne.symm hk1, Ne.symm hk2, Ne.symm hk3,
        Ne.symm hk5, Ne.symm hk6]
    · refine ⟨setPair (setPair mkv "score" (.num (rnd sc))) "notes" (.str (pyStrip mn)),
        ?_, ?_, ?_, ?_⟩
      · subst hpp
        simp [pyGet, setItem, dictFind_setPair]
      · intro k hk1 hk2
        simp [dictFind_setPair, Ne.symm hk1, Ne.symm hk2]
      · simp [dictFind_setPair]
      · simp [dictFind_setPair]
    · refine ⟨setPair skv "quality" (.num (rnd ql)), ?_, ?_, ?_⟩
      · subst hpp
        simp [pyGet, setItem, dictFind_setPair]
      · intro k hk1
        simp [dictFind_setPair, Ne.symm hk1]
      · simp [dictFind_setPair]
    · refine ⟨dkv, ?_, ?_, ?_⟩
      · subst hpp
        simp [pyGet, setItem, dictFind_setPair, hdiet]
      · intro k hk1
        rfl
      · simp [hdn]

/-- Mood section of the concrete round-trip record: its notes carry
leading and trailing whitespace. -/
def rtMood : List (String × PyVal) :=
  [("score", .num 7), ("triggers", .list []), ("notes", .str " hello world ")]

def rtSleep : List (String × PyVal) :=
  [("hours", .num 8), ("quality", .num 7), ("issues", .list [])]

def rtDiet : List (String × PyVal) :=
  [("meals", .list []), ("water_intake", .num 6), ("supplements", .list [])]

def rtSymptoms : List (String × PyVal) :=
  [("physical", .dict []), ("emotional", .dict []), ("intensity", .str "moderate")]

def rtExercise : List (String × PyVal) :=
  [("type", .str "Walking"), ("duration", .num 30), ("intensity", .str "Low")]

def rtKvs : List (String × PyVal) :=
  [("date", .str "2024-01-02"), ("mood", .dict rtMood), ("sleep", .dict rtSleep),
   ("diet", .dict rtDiet), ("symptoms", .dict rtSymptoms), ("exercise", .dict rtExercise)]

/-- A concrete record that passes all five validators. -/
def roundTripRecord : PyVal := .dict rtKvs

/-- Counterexample to C9 as stated: this valid record goes through
preprocess → validate → store → window, but the mood notes come back as
`"hello world"` although the input notes were `" hello world "` — a notes
field is not byte-equal after the round trip, because
`clean_text_fields` strips it. -/
theorem C9_roundtrip_counterexample :
    ∃ p rb, process_health_record id id roundTripRecord = .ok p ∧
      validateAllSections p = .ok true ∧
      get_data_for_period "week" (add_health_record [] p) = .ok [rb] ∧
      (pyGet rb "mood").bind (fun m => pyGet m "notes") = some (.str "hello world") ∧
      (pyGet roundTripRecord "mood").bind (fun m => pyGet m "notes")
        = some (.str " hello world ") ∧
      ("hello world" : String) ≠ " hello world " :=
  ⟨_, _, rfl, rfl, rfl, rfl, rfl, by decide⟩

/-- Witness for the amended C9 theorem at the concrete record: the
processed record, with the two flat window columns appended, is found in
the week window of the store it was added to. -/
theorem C9_roundtrip_preserves_fields_witness :
    ∃ p w, process_health_record id id roundTripRecord = .ok p ∧
      get_data_for_period "week" (add_health_record [] p) = .ok w ∧
      setItem (setItem (setItem p "mood_score" (.num 7)) "sleep_quality" (.num 7)) "date"
        (.str (formatDate 19724)) ∈ w := by
  have h := C9_roundtrip_preserves_fields id id rtKvs rtMood rtSleep rtDiet
    "2024-01-02" " hello world " 7 7 [] [19724] 19724 19724 _
    rfl rfl rfl rfl rfl rfl rfl (Or.inr rfl)
    (fun x hx => absurd hx (List.not_mem_nil x))
    rfl rfl rfl rfl rfl (by decide)
  obtain ⟨w, hw, hmem, _⟩ := h
  exact ⟨_, _, rfl, hw, hmem⟩
